import Mathlib

/-!
Shallow embedding of the ENS compute gateway (envelope protocol and lookup
pipeline) and proofs of the specification claims.

JavaScript values are modelled by the inductive `JValue`; an absent object
field or an `undefined` value is modelled by `Option JValue` at use sites.
External library primitives (keccak-256, secp256k1 signing, ABI
encode/decode, `JSON.parse`, UTF-8 decoding) are parameters of the
definitions; everything the repository's own code does is translated
directly from the source.
-/

/-- A JavaScript/JSON value (numbers restricted to integers, which covers
every numeric value the gateway itself produces). -/
inductive JValue where
  | null : JValue
  | bool : Bool → JValue
  | num : Int → JValue
  | str : String → JValue
  | arr : List JValue → JValue
  | obj : List (String × JValue) → JValue

/-- A JavaScript object: an association list of fields in insertion order. -/
abbrev JObj := List (String × JValue)

/-- JavaScript truthiness of a defined value. -/
def JValue.truthy : JValue → Bool
  | .null => false
  | .bool b => b
  | .num n => decide (n ≠ 0)
  | .str s => decide (s ≠ "")
  | .arr _ => true
  | .obj _ => true

/-- The JavaScript expression `a || b` where `a` may be `undefined`
(modelled as `none`). -/
def jsOr (a : Option JValue) (b : JValue) : JValue :=
  match a with
  | some v => if v.truthy then v else b
  | none => b

/-- Property access `v.k` in JavaScript: throws (`.error`) on `null`,
yields `undefined` (`none`) on primitives and arrays, looks the key up on
objects. -/
def jsGetField : JValue → String → Except Unit (Option JValue)
  | .null, _ => .error ()
  | .obj l, k => .ok (l.lookup k)
  | _, _ => .ok none

/-- Property access that is known not to throw (receiver is not `null`). -/
def jsGetSafe (v : JValue) (k : String) : Option JValue :=
  match v with
  | .obj l => l.lookup k
  | _ => none

/-- Lower-case hexadecimal digit. -/
def hexDigit (n : Nat) : Char :=
  if n < 10 then Char.ofNat (48 + n) else Char.ofNat (87 + n)

/-- The escaping `JSON.stringify` applies to a single character of a
string value. -/
def jsonEscapeChar (c : Char) : List Char :=
  if c = '"' then ['\\', '"']
  else if c = '\\' then ['\\', '\\']
  else if c.toNat = 8 then ['\\', 'b']
  else if c.toNat = 9 then ['\\', 't']
  else if c.toNat = 10 then ['\\', 'n']
  else if c.toNat = 12 then ['\\', 'f']
  else if c.toNat = 13 then ['\\', 'r']
  else if c.toNat < 32 then
    ['\\', 'u', '0', '0', hexDigit (c.toNat / 16), hexDigit (c.toNat % 16)]
  else [c]

/-- `JSON.stringify` of a string: double quotes around the escaped content. -/
def jsonQuote (s : String) : String :=
  ⟨'"' :: (s.data.map jsonEscapeChar).flatten ++ ['"']⟩

mutual
/-- `JSON.stringify` of a value: no whitespace, object keys in insertion
order, strings quoted and escaped. -/
def JValue.stringify : JValue → String
  | .null => "null"
  | .bool true => "true"
  | .bool false => "false"
  | .num n => toString n
  | .str s => jsonQuote s
  | .arr l => "[" ++ stringifyList l ++ "]"
  | .obj l => "\x7b" ++ stringifyObj l ++ "\x7d"

/-- Comma-separated rendering of array elements. -/
def stringifyList : List JValue → String
  | [] => ""
  | [x] => x.stringify
  | x :: y :: rest => x.stringify ++ "," ++ stringifyList (y :: rest)

/-- Comma-separated rendering of object fields. -/
def stringifyObj : List (String × JValue) → String
  | [] => ""
  | [(k, v)] => jsonQuote k ++ ":" ++ v.stringify
  | (k, v) :: p :: rest => jsonQuote k ++ ":" ++ v.stringify ++ "," ++ stringifyObj (p :: rest)
end

/-- UTF-8 encoding of one character. -/
def utf8Char (c : Char) : List Nat :=
  let n := c.toNat
  if n < 128 then [n]
  else if n < 2048 then [192 + n / 64, 128 + n % 64]
  else if n < 65536 then [224 + n / 4096, 128 + n / 64 % 64, 128 + n % 64]
  else [240 + n / 262144, 128 + n / 4096 % 64, 128 + n / 64 % 64, 128 + n % 64]

/-- UTF-8 encoding of a string as a byte list. -/
def utf8Bytes (s : String) : List Nat := (s.data.map utf8Char).flatten

/-- Lexicographic (code-unit) comparison of character lists, as used by
JavaScript's default `Array.prototype.sort` on strings. -/
def charListLe : List Char → List Char → Bool
  | [], _ => true
  | _ :: _, [] => false
  | a :: as, b :: bs => if a < b then true else if b < a then false else charListLe as bs

/-- JavaScript string comparison used by `Object.keys(obj).sort()`. -/
def strLe (a b : String) : Bool := charListLe a.data b.data

/-- Insert a field into a key-sorted field list. -/
def insertByKey (p : String × JValue) : List (String × JValue) → List (String × JValue)
  | [] => [p]
  | q :: rest => if strLe p.1 q.1 then p :: q :: rest else q :: insertByKey p rest

/-- Sort an object's fields by key (the effect of
`Object.keys(obj).sort().reduce(...)` for objects without duplicate keys). -/
def sortByKey : List (String × JValue) → List (String × JValue)
  | [] => []
  | p :: rest => insertByKey p (sortByKey rest)

/-- `canonicalizeJSON` from src/gateway/utils/signer.js: sort the keys
alphabetically, then `JSON.stringify` the resulting object. -/
def canonicalizeJSON (obj : List (String × JValue)) : String :=
  JValue.stringify (.obj (sortByKey obj))

/-- `computeDigest` from src/gateway/utils/signer.js: build the canonical
object (with `||` defaults) from the envelope's eight content fields —
`digest` and `signature` are never read — canonicalize, hash the UTF-8
bytes with keccak-256 (the `keccak` parameter stands for
`ethers.keccak256`). -/
def computeDigest (keccak : List Nat → List Nat) (envelope : JObj) : List Nat :=
  let canonical : List (String × JValue) :=
    [("cache_ttl", jsOr (envelope.lookup "cache_ttl") (.num 0)),
     ("cursor", jsOr (envelope.lookup "cursor") .null),
     ("meta", jsOr (envelope.lookup "meta") (.str "")),
     ("method", jsOr (envelope.lookup "method") (.str "")),
     ("name", jsOr (envelope.lookup "name") (.str "")),
     ("params", jsOr (envelope.lookup "params") (.str "")),
     ("prev_digest", jsOr (envelope.lookup "prev_digest") .null),
     ("result", jsOr (envelope.lookup "result") (.str ""))]
  keccak (utf8Bytes (canonicalizeJSON canonical))

/-- A raw secp256k1 signature as returned by
`ethers.Wallet.signingKey.sign`: 32-byte `r`, 32-byte `s`, recovery
byte `v`. -/
structure SigRSV where
  r : List Nat
  s : List Nat
  v : Nat

/-- Bytes of the EIP-191 personal-message header
`"\x19Ethereum Signed Message:\n32"`. -/
def eip191Bytes : List Nat := utf8Bytes "\x19Ethereum Signed Message:\n32"

/-- The ternary `typeof x === 'string' ? x : JSON.stringify(x)`. -/
def strOrStringify : JValue → String
  | .str s => s
  | v => v.stringify

/-- Input record of `createEnvelope` (src/gateway/utils/envelope.js).
`none` models an absent / `undefined` property, so the destructuring
defaults of the source apply exactly to `none`. -/
structure EnvelopeParams where
  name : JValue
  method : JValue
  params : JValue
  result : JValue
  cursor : Option JValue
  prevDigest : Option JValue
  meta : Option JValue
  cacheTtl : Option JValue

/-- The envelope record built by `createEnvelope`. -/
structure Envelope where
  name : JValue
  method : JValue
  params : String
  result : String
  cursor : JValue
  prev_digest : JValue
  meta : String
  cache_ttl : JValue
  digest : List Nat
  signature : List Nat

/-- The envelope's own fields as the JavaScript object handed to
`computeDigest` (in the insertion order of the source; `digest` and
`signature` are not yet set when `computeDigest` runs). -/
def envelopeObj (name method : JValue) (params result : String) (cursor prev_digest : JValue)
    (meta : String) (cache_ttl : JValue) : JObj :=
  [("name", name), ("method", method), ("params", .str params), ("result", .str result),
   ("cursor", cursor), ("prev_digest", prev_digest), ("meta", .str meta),
   ("cache_ttl", cache_ttl)]

/-- `createEnvelope` from src/gateway/utils/envelope.js.  `keccak` stands
for `ethers.keccak256` and `sign` for `wallet.signingKey.sign`; the
returned signature is `concat([r, s, toBeHex(v, 1)])`. -/
def createEnvelope (keccak : List Nat → List Nat) (sign : List Nat → SigRSV)
    (p : EnvelopeParams) : Envelope :=
  let cursor0 := p.cursor.getD .null
  let prevDigest0 := p.prevDigest.getD .null
  let meta0 := p.meta.getD (.obj [])
  let cacheTtl0 := p.cacheTtl.getD (.num 30)
  let paramsStr := strOrStringify p.params
  let resultStr := strOrStringify p.result
  let cursorV := jsOr (some cursor0) .null
  let prevV := jsOr (some prevDigest0) .null
  let metaStr := strOrStringify meta0
  let digest := computeDigest keccak
    (envelopeObj p.name p.method paramsStr resultStr cursorV prevV metaStr cacheTtl0)
  let messageHash := keccak (eip191Bytes ++ digest)
  let sg := sign messageHash
  { name := p.name, method := p.method, params := paramsStr, result := resultStr,
    cursor := cursorV, prev_digest := prevV, meta := metaStr, cache_ttl := cacheTtl0,
    digest := digest, signature := sg.r ++ sg.s ++ [sg.v] }

/-- `signData` from src/gateway/utils/signer.js: hash the data, wrap the
hash with the EIP-191 header, hash again, sign, serialize `r ‖ s ‖ v`. -/
def signData (keccak : List Nat → List Nat) (sign : List Nat → SigRSV)
    (dataBytes : List Nat) : List Nat :=
  let dataHash := keccak dataBytes
  let messageHash := keccak (eip191Bytes ++ dataHash)
  let sg := sign messageHash
  sg.r ++ sg.s ++ [sg.v]

/-- `signResult` from src/gateway/utils/signer.js: sign the UTF-8 bytes of
the JSON serialization of the result. -/
def signResult (keccak : List Nat → List Nat) (sign : List Nat → SigRSV)
    (result : JValue) : List Nat :=
  signData keccak sign (utf8Bytes result.stringify)

/-- Big-endian interpretation of a byte list. -/
def bytesToNat (l : List Nat) : Nat := l.foldl (fun acc b => acc * 256 + b) 0

/-- The order of the secp256k1 group. -/
def secpOrder : Nat :=
  115792089237316195423570985008687907852837564279074904382605163141518161494337

/-- Contract of `ethers.Wallet.signingKey.sign` together with
`ecrecover`: fixed component lengths, `v` in `{27, 28}`, low-S
normalization, and recovery of the configured signer's address from the
65-byte serialization. -/
structure SignerSpec (sign : List Nat → SigRSV)
    (ecrecover : List Nat → List Nat → Option (List Nat)) (addr : List Nat) : Prop where
  rLen : ∀ h, (sign h).r.length = 32
  sLen : ∀ h, (sign h).s.length = 32
  vRange : ∀ h, (sign h).v = 27 ∨ (sign h).v = 28
  lowS : ∀ h, bytesToNat (sign h).s ≤ secpOrder / 2
  recovers : ∀ h, ecrecover h ((sign h).r ++ (sign h).s ++ [(sign h).v]) = some addr

/-- Whitespace for JavaScript's `String.prototype.trim` (ASCII whitespace
plus NBSP and the BOM). -/
def isJsSpaceChar (c : Char) : Bool :=
  decide (c.toNat = 32 ∨ c.toNat = 9 ∨ c.toNat = 10 ∨ c.toNat = 11 ∨ c.toNat = 12 ∨
    c.toNat = 13 ∨ c.toNat = 160 ∨ c.toNat = 65279)

/-- `sanitizeString` from src/gateway/middleware/validation.js applied to a
string: strip NUL bytes, trim, truncate to `maxLength`. -/
def sanitizeStr (input : String) (maxLength : Nat) : String :=
  let noNul := input.data.filter (fun c => decide (c.toNat ≠ 0))
  let trimmed := ((noNul.dropWhile isJsSpaceChar).reverse.dropWhile isJsSpaceChar).reverse
  ⟨trimmed.take maxLength⟩

/-- `sanitizeString` on an arbitrary value: non-strings sanitize to `""`. -/
def sanitizeJValue (v : JValue) (maxLength : Nat) : String :=
  match v with
  | .str s => sanitizeStr s maxLength
  | _ => ""

/-- Character class `[a-z0-9-]` of the ENS-name regex, case-insensitive. -/
def isEnsLabelChar (c : Char) : Bool :=
  decide ((97 ≤ c.toNat ∧ c.toNat ≤ 122) ∨ (65 ≤ c.toNat ∧ c.toNat ≤ 90) ∨
    (48 ≤ c.toNat ∧ c.toNat ≤ 57) ∨ c.toNat = 45)

/-- ASCII lower-casing of one character (for the case-insensitive regex). -/
def toLowerAscii (c : Char) : Char :=
  if 65 ≤ c.toNat ∧ c.toNat ≤ 90 then Char.ofNat (c.toNat + 32) else c

/-- The test `/^[a-z0-9-]+\.eth$/i.test(s)`. -/
def ensRegexTest (s : String) : Bool :=
  let cs := s.data
  let k := cs.length
  decide (5 ≤ k) && ((cs.drop (k - 4)).map toLowerAscii == ['.', 'e', 't', 'h']) &&
    (cs.take (k - 4)).all isEnsLabelChar

/-- `isValidENSName` on a string: regex test plus the 255-length bound
(`!name` is subsumed: the empty string fails the regex). -/
def isValidENSNameStr (s : String) : Bool :=
  ensRegexTest s && decide (s.data.length ≤ 255)

/-- Does the string start with `"0x"`. -/
def strStartsWith0x (s : String) : Bool :=
  match s.data with
  | '0' :: 'x' :: _ => true
  | _ => false

/-- `isValidNode` from src/gateway/middleware/validation.js.  `namehashOk`
stands for "`ethers.namehash` does not throw on this string". -/
def isValidNode (namehashOk : String → Bool) : JValue → Bool
  | .str s =>
    if (JValue.str s).truthy then
      if strStartsWith0x s then decide (s.data.length = 66) else namehashOk s
    else false
  | _ => false

/-- Sanitize one `params` entry: string values are sanitized to 1000
characters, everything else is untouched. -/
def sanitizeEntry (p : String × JValue) : String × JValue :=
  match p.2 with
  | .str s => (p.1, .str (sanitizeStr s 1000))
  | _ => p

/-- Sanitize one array element of `params` the same way. -/
def sanitizeElem (v : JValue) : JValue :=
  match v with
  | .str s => .str (sanitizeStr s 1000)
  | _ => v

/-- Replace the value of a present field. -/
def setField (o : JObj) (k : String) (v : JValue) : JObj :=
  o.map (fun p => if p.1 == k then (p.1, v) else p)

/-- `validateRequest` from src/gateway/middleware/validation.js: collect
the error reasons in source order, mutate `name` (sanitized) and `params`
(entry-sanitized) in place, and fail iff any reason accumulated. -/
def validateRequest (namehashOk : String → Bool) (body : JObj) :
    Except (List String) JObj :=
  let nodeErrs :=
    match body.lookup "node" with
    | some nv =>
      if nv.truthy then
        if isValidNode namehashOk nv then [] else ["Invalid node parameter"]
      else []
    | none => []
  let namePass :=
    match body.lookup "name" with
    | some nv =>
      if nv.truthy then
        let s := sanitizeJValue nv 255
        ((if isValidENSNameStr s then [] else ["Invalid ENS name"]),
          setField body "name" (.str s))
      else ([], body)
    | none => ([], body)
  let dataErrs :=
    match body.lookup "data" with
    | some dv =>
      if dv.truthy then
        if 100000 < (JValue.stringify dv).length then
          ["Request data too large (max 100KB)"]
        else []
      else []
    | none => []
  let paramsPass :=
    match namePass.2.lookup "params" with
    | some pv =>
      if pv.truthy then
        match pv with
        | .obj l => ([], setField namePass.2 "params" (.obj (l.map sanitizeEntry)))
        | .arr l => ([], setField namePass.2 "params" (.arr (l.map sanitizeElem)))
        | _ => (["Params must be an object"], namePass.2)
      else ([], namePass.2)
    | none => ([], namePass.2)
  let errs := nodeErrs ++ namePass.1 ++ dataErrs ++ paramsPass.1
  if errs.isEmpty then .ok paramsPass.2 else .error errs

/-- A sliding-window rate limiter's configuration
(src/gateway/middleware/rateLimit.js). -/
structure RateLimiter where
  windowMs : Int
  maxRequests : Nat

/-- The eviction loop `while (requests.length > 0 && requests[0] <
windowStart) requests.shift()`. -/
def evictOld (windowStart : Int) : List Int → List Int
  | [] => []
  | t :: rest => if t < windowStart then evictOld windowStart rest else t :: rest

/-- `RateLimiter.check`: evict, deny (without appending) when the window
is full, otherwise append `now` and admit. -/
def RateLimiter.check (lim : RateLimiter) (now : Int) (store : List Int) :
    Bool × List Int :=
  let requests := evictOld (now - lim.windowMs) store
  if lim.maxRequests ≤ requests.length then (false, requests)
  else (true, requests ++ [now])

/-- Timestamps of the admitted requests when a key's store evolves through
a sequence of `check` calls at the given `Date.now()` readings. -/
def admittedTimes (lim : RateLimiter) : List Int → List Int → List Int
  | _, [] => []
  | store, now :: rest =>
    let c := lim.check now store
    if c.1 then now :: admittedTimes lim c.2 rest else admittedTimes lim c.2 rest

/-- The `ip` limiter: 60 s window, 100 requests. -/
def ipRateLimiter : RateLimiter := ⟨60000, 100⟩

/-- The `apiKey` limiter: 60 s window, 1000 requests. -/
def apiKeyRateLimiter : RateLimiter := ⟨60000, 1000⟩

/-- Truthiness of the `x-api-key` header value. -/
def headerTruthy : Option String → Bool
  | some s => decide (s ≠ "")
  | none => false

/-- The request data `rateLimitMiddleware` consults. -/
structure RLRequest where
  apiKeyHeader : Option String
  ip : String

/-- `req.headers['x-api-key'] ? apiKeyRateLimiter : ipRateLimiter`. -/
def selectLimiter (r : RLRequest) : RateLimiter :=
  if headerTruthy r.apiKeyHeader then apiKeyRateLimiter else ipRateLimiter

/-- The 429 body sent on rate-limit denial. -/
def rateLimitDenyBody : JObj :=
  [("error", .str "Rate limit exceeded"), ("retryAfter", .num 60), ("remaining", .num 0)]

/-- `rateLimitMiddleware` restricted to one key's store: returns the 429
response on denial (`none` means `next()` was called) and the updated
store. -/
def rateLimitMiddleware (r : RLRequest) (store : List Int) (now : Int) :
    Option (Nat × JObj) × List Int :=
  let lim := selectLimiter r
  let c := lim.check now store
  if c.1 then (none, c.2) else (some (429, rateLimitDenyBody), c.2)

/-- The three registered compute implementations; the functions themselves
are external collaborators and stay abstract. -/
structure ComputeImpls where
  pricefeed : JValue → Except String JValue
  daovotes : JValue → Except String JValue
  nftfloor : JValue → Except String JValue

/-- The `computeFunctions` registry object of src/gateway/compute/index.js. -/
def computeFunctions (impls : ComputeImpls) :
    List (String × (JValue → Except String JValue)) :=
  [("pricefeed", impls.pricefeed), ("daovotes", impls.daovotes), ("nftfloor", impls.nftfloor)]

/-- `executeCompute`: dispatch by name, throwing
`Unknown compute function: <name>` when the name is not registered. -/
def executeCompute (impls : ComputeImpls) (functionName : String) (params : JValue) :
    Except String JValue :=
  match (computeFunctions impls).lookup functionName with
  | none => .error ("Unknown compute function: " ++ functionName)
  | some f => f params

/-- `listFunctions`: the registered names. -/
def listFunctions (impls : ComputeImpls) : List String :=
  (computeFunctions impls).map Prod.fst

mutual
/-- JavaScript's ToString coercion (as performed by property lookup on the
registry object and by template-literal interpolation). -/
def jsToString : JValue → String
  | .null => "null"
  | .bool true => "true"
  | .bool false => "false"
  | .num n => toString n
  | .str s => s
  | .arr l => jsArrJoin l
  | .obj _ => "[object Object]"

/-- `Array.prototype.join(',')`, with `null` elements rendered empty. -/
def jsArrJoin : List JValue → String
  | [] => ""
  | [.null] => ""
  | [x] => jsToString x
  | .null :: y :: rest => "," ++ jsArrJoin (y :: rest)
  | x :: y :: rest => jsToString x ++ "," ++ jsArrJoin (y :: rest)
end

/-- The guard `data && (typeof data === 'string' ? data.length > 0 :
Object.keys(data).length > 0)` on a defined value. -/
def dataEnterBranch : JValue → Bool
  | .str s => decide (s ≠ "")
  | .obj l => decide (l.length ≠ 0)
  | .arr l => decide (l.length ≠ 0)
  | _ => false

/-- External library primitives the lookup route uses. -/
structure JsLibs where
  keccak : List Nat → List Nat
  sign : List Nat → SigRSV
  abiDecodeStringBytes : String → Except String (String × List Nat)
  toUtf8String : List Nat → Except String String
  jsonParse : String → Except String JValue
  abiEncodeEnvelopeTuple : JValue → JValue → String → String → JValue → JValue →
    String → JValue → List Nat → List Nat → String
  abiEncodeBytesBytes : List Nat → List Nat → String

/-- Result of the call-data decoding block of `POST /lookup`
(src gateway server, lines 47–83): the `functionName` and `params`
variables and the `console.warn` messages emitted. -/
structure DecodeOut where
  fn : JValue
  params : JValue
  warnings : List String

/-- The call-data decoding block of `POST /lookup`.  The outer `try`
catches ABI-decode and `JSON.parse` failures of the whole `data` value and
falls back to both defaults; the inner `try` only guards the parse of the
ABI-decoded params bytes, so there only `params` falls back while the
decoded method name is kept. -/
def decodeCallData (libs : JsLibs) (data : Option JValue) : DecodeOut :=
  let fn0 : JValue := .str "pricefeed"
  let params0 : JValue := .obj []
  match data with
  | none => ⟨fn0, params0, []⟩
  | some dv =>
    if dataEnterBranch dv then
      match dv with
      | .str s =>
        if strStartsWith0x s then
          match libs.abiDecodeStringBytes s with
          | .error _ => ⟨fn0, params0, ["Could not decode call data, using defaults"]⟩
          | .ok (decodedName, paramsBytes) =>
            let fn1 := jsOr (some (.str decodedName)) fn0
            if paramsBytes.length ≠ 0 then
              match libs.toUtf8String paramsBytes with
              | .error _ => ⟨fn1, params0, ["Could not parse params JSON"]⟩
              | .ok u =>
                match libs.jsonParse u with
                | .error _ => ⟨fn1, params0, ["Could not parse params JSON"]⟩
                | .ok p => ⟨fn1, p, []⟩
            else ⟨fn1, params0, []⟩
        else
          match libs.jsonParse s with
          | .error _ => ⟨fn0, params0, ["Could not decode call data, using defaults"]⟩
          | .ok parsed =>
            match jsGetField parsed "function", jsGetField parsed "params" with
            | .ok fv, .ok pv => ⟨jsOr fv fn0, jsOr pv params0, []⟩
            | _, _ => ⟨fn0, params0, ["Could not decode call data, using defaults"]⟩
      | _ =>
        match jsGetField dv "function", jsGetField dv "params" with
        | .ok fv, .ok pv => ⟨jsOr fv fn0, jsOr pv params0, []⟩
        | _, _ => ⟨fn0, params0, ["Could not decode call data, using defaults"]⟩
    else ⟨fn0, params0, []⟩

/-- Hex rendering of a byte list with `0x`. -/
def bytesToHex (l : List Nat) : String :=
  ⟨'0' :: 'x' :: (l.map (fun b => [hexDigit (b / 16 % 16), hexDigit (b % 16)])).flatten⟩

/-- `ethers.ZeroHash`: the hex string of 32 zero bytes. -/
def zeroHashHex : String := bytesToHex (List.replicate 32 0)

/-- The strict comparison `x !== false`, negated: true exactly for the
boolean literal `false`. -/
def isLiteralFalse : Option JValue → Bool
  | some (.bool false) => true
  | _ => false

/-- Is the value the JavaScript `null` literal. -/
def JValue.isNull : JValue → Bool
  | .null => true
  | _ => false

/-- The envelope as the JSON value returned next to `data` for debugging
(`digest` and `signature` are hex strings on the JavaScript side). -/
def envelopeJson (e : Envelope) : JValue :=
  .obj [("name", e.name), ("method", e.method), ("params", .str e.params),
    ("result", .str e.result), ("cursor", e.cursor), ("prev_digest", e.prev_digest),
    ("meta", .str e.meta), ("cache_ttl", e.cache_ttl),
    ("digest", .str (bytesToHex e.digest)), ("signature", .str (bytesToHex e.signature))]

/-- A metrics call made while handling a request. -/
inductive MetricEvent where
  | request (method : String) (success : Bool) (latency : Int)
  | signatureGenerated

/-- An HTTP response of the route together with its observable side
effects: which compute functions were dispatched, how many signatures were
produced, and the metrics calls. -/
structure HandlerOut where
  status : Nat
  body : JObj
  dispatched : List String
  signOps : Nat
  events : List MetricEvent

/-- Either a response was sent, or an exception escaped the route handler
(no response at all). -/
inductive HandlerResult where
  | responded (out : HandlerOut)
  | crashed (msg : String)

/-- Everything the route closes over: library primitives, the compute
registry, `ethers.namehash` acceptance, and the `Date.now()` readings
taken during the request. -/
structure GatewayDeps where
  libs : JsLibs
  impls : ComputeImpls
  namehashOk : String → Bool
  nonce : Int
  ts : Int
  startMs : Int
  endMs : Int

/-- The 400 body produced when validation fails. -/
def validationFailedBody (errs : List String) : JObj :=
  [("error", .str "Validation failed"), ("details", .arr (errs.map JValue.str))]

/-- `POST /lookup` (gateway server): `validateRequest` middleware, the
`!node` guard, call-data decoding, dispatch, then the envelope or legacy
encoding.  The `catch` block of the source reads the `try`-scoped `let
functionName`, so any thrown error (an unknown compute function included)
raises a `ReferenceError` inside the `catch` and no 500 response or error
metric is ever produced: this is the `.crashed` outcome. -/
def lookupHandler (d : GatewayDeps) (body : JObj) : HandlerResult :=
  match validateRequest d.namehashOk body with
  | .error errs => .responded ⟨400, validationFailedBody errs, [], 0, []⟩
  | .ok b =>
    if ¬ (jsOr (b.lookup "node") .null).truthy then
      .responded ⟨400, [("error", .str "Missing node parameter")], [], 0, []⟩
    else
      let dec := decodeCallData d.libs (b.lookup "data")
      let fnStr := jsToString dec.fn
      match executeCompute d.impls fnStr dec.params with
      | .error _ => .crashed "ReferenceError: functionName is not defined"
      | .ok result =>
        if ¬ isLiteralFalse (b.lookup "useEnvelope") then
          if dec.params.isNull then
            .crashed "TypeError: Cannot read properties of null"
          else
            let envl := createEnvelope d.libs.keccak d.libs.sign
              { name := jsOr (b.lookup "name") (.str "unknown.eth"),
                method := dec.fn,
                params := dec.params,
                result := result,
                cursor := some (jsOr (jsGetSafe dec.params "cursor") .null),
                prevDigest := some (jsOr (jsGetSafe dec.params "prevDigest") .null),
                meta := some (.obj [("provider", .str "ens-compute-gateway"),
                  ("version", .str "1.0.0"), ("nonce", .num d.nonce),
                  ("timestamp", .num d.ts)]),
                cacheTtl := some (jsOr (jsGetSafe dec.params "cacheTtl") (.num 30)) }
            let dataHex := d.libs.abiEncodeEnvelopeTuple envl.name envl.method
              envl.params envl.result (jsOr (some envl.cursor) (.str ""))
              (jsOr (some envl.prev_digest) (.str zeroHashHex)) envl.meta
              envl.cache_ttl envl.digest envl.signature
            .responded ⟨200,
              [("data", .str dataHex), ("envelope", envelopeJson envl)],
              [fnStr], 1,
              [.request fnStr true (d.endMs - d.startMs), .signatureGenerated]⟩
        else
          let signature := signResult d.libs.keccak d.libs.sign result
          let dataHex := d.libs.abiEncodeBytesBytes (utf8Bytes result.stringify) signature
          .responded ⟨200, [("data", .str dataHex)], [fnStr], 1,
            [.request fnStr true (d.endMs - d.startMs), .signatureGenerated]⟩

/-- A 32-byte big-endian ABI word. -/
def abiWord (n : Nat) : List Nat :=
  (List.range 32).map (fun i => n / 256 ^ (31 - i) % 256)

/-- Zero-padding to a multiple of 32 bytes. -/
def padRight32 (l : List Nat) : List Nat :=
  l ++ List.replicate ((32 - l.length % 32) % 32) 0

/-- ABI tail encoding of dynamic `bytes`/`string` content. -/
def abiDynBytes (b : List Nat) : List Nat := abiWord b.length ++ padRight32 b

/-- Standard ABI encoding of the argument list `(string, bytes)` (the call
data shape `ethers.AbiCoder.defaultAbiCoder().decode(['string','bytes'],
data)` accepts). -/
def abiEncodeStringBytes (s : String) (b : List Nat) : List Nat :=
  let sEnc := abiDynBytes (utf8Bytes s)
  abiWord 64 ++ abiWord (64 + sEnc.length) ++ sEnc ++ abiDynBytes b

/-- `hay` contains `needle` as a contiguous substring. -/
def strContainsSub (hay needle : String) : Prop := ∃ l r, hay = l ++ (needle ++ r)

/-- The eight content fields of a built envelope (digest and signature
excluded), keyed as in the canonical object. -/
def envelopeContentFields (E : Envelope) : List (String × JValue) :=
  [("cache_ttl", E.cache_ttl), ("cursor", E.cursor), ("meta", .str E.meta),
   ("method", E.method), ("name", E.name), ("params", .str E.params),
   ("prev_digest", E.prev_digest), ("result", .str E.result)]

/-- The canonical JSON of a built envelope's content fields. -/
def digestPreimage (E : Envelope) : String :=
  canonicalizeJSON (envelopeContentFields E)

/-- A stand-in hash function usable to instantiate the `keccak` parameter. -/
def kecc0 : List Nat → List Nat := fun _ => List.replicate 32 0

/-- A stand-in signing primitive. -/
def sign0 : List Nat → SigRSV := fun _ => ⟨List.replicate 32 0, List.replicate 32 0, 27⟩

/-- A stand-in recovered address. -/
def addr0 : List Nat := List.replicate 20 0

/-- A stand-in recovery primitive matching `sign0`. -/
def ecrecover0 : List Nat → List Nat → Option (List Nat) := fun _ _ => some addr0

/-- Builder input with every optional field absent. -/
def pAllAbsent : EnvelopeParams :=
  ⟨.str "pricefeed.eth", .str "pricefeed", .str "\x7b\x7d", .str "\x7b\x7d",
    none, none, none, none⟩

/-- Builder input passing `cache_ttl: 30` explicitly. -/
def pTtl30 : EnvelopeParams :=
  ⟨.str "pricefeed.eth", .str "pricefeed", .str "\x7b\x7d", .str "\x7b\x7d",
    none, none, none, some (.num 30)⟩

/-- The genuine ABI encoding, as call-data hex, of the tuple
`("daovotes", utf8("notjson"))` — params bytes that are valid UTF-8 but
not JSON. -/
def cxHex : String := bytesToHex (abiEncodeStringBytes "daovotes" (utf8Bytes "notjson"))

/-- A concrete library model agreeing with ethers / `JSON.parse` at the
inputs exercised by the counterexample: the genuine encoding decodes to
`("daovotes", "notjson")`, and `"notjson"` is not valid JSON. -/
def cxLibs : JsLibs where
  keccak := kecc0
  sign := sign0
  abiDecodeStringBytes := fun s =>
    if s = cxHex then .ok ("daovotes", utf8Bytes "notjson") else .error "could not decode"
  toUtf8String := fun b =>
    if b = utf8Bytes "notjson" then .ok "notjson" else .error "invalid utf8"
  jsonParse := fun _ => .error "Unexpected token"
  abiEncodeEnvelopeTuple := fun _ _ _ _ _ _ _ _ _ _ => "0x"
  abiEncodeBytesBytes := fun _ _ => "0x"

/-- Concrete compute implementations for instantiation. -/
def impls0 : ComputeImpls :=
  ⟨fun _ => .ok (.obj []), fun _ => .ok (.obj []), fun _ => .ok (.obj [])⟩

/-- Concrete gateway集 dependencies for evaluation. -/
def deps0 : GatewayDeps := ⟨cxLibs, impls0, fun _ => true, 0, 0, 0, 0⟩

/-- A valid node value: the zero namehash. -/
def nodeHex0 : String := zeroHashHex

/-- A request body carrying an unregistered method name via object data. -/
def bodyUnknownMethod : JObj :=
  [("node", .str nodeHex0), ("data", .obj [("function", .str "nosuch")])]

/-- A body with no `node` field that fails validation. -/
def bodyBadName : JObj := [("name", .str "bad name!")]

/-- A 102401-character string value: serialized as JSON it exceeds
100 KiB. -/
def bigStr : JValue := .str ⟨List.replicate 102401 'a'⟩

/-- A request body with a valid node and the oversized data field. -/
def bodyBig : JObj := [("node", .str nodeHex0), ("data", bigStr)]

/-- Body taking the envelope path (no `useEnvelope` field). -/
def bodyEnvPath : JObj := [("node", .str nodeHex0)]

/-- Body opting out of the envelope (`useEnvelope: false`). -/
def bodyLegacyPath : JObj := [("node", .str nodeHex0), ("useEnvelope", .bool false)]

/-- The envelope built for `bodyEnvPath` under `deps0`. -/
def E3 : Envelope := createEnvelope cxLibs.keccak cxLibs.sign
  ⟨.str "unknown.eth", .str "pricefeed", .obj [], .obj [],
    some .null, some .null,
    some (.obj [("provider", .str "ens-compute-gateway"), ("version", .str "1.0.0"),
      ("nonce", .num 0), ("timestamp", .num 0)]),
    some (.num 30)⟩

theorem strAppendAssoc (a b c : String) : a ++ b ++ c = a ++ (b ++ c) := by
  rcases a with ⟨la⟩; rcases b with ⟨lb⟩; rcases c with ⟨lc⟩
  show String.mk (la ++ lb ++ lc) = String.mk (la ++ (lb ++ lc))
  rw [List.append_assoc]

theorem strMergeLit (a b c x : String) (h : a ++ b = c) : a ++ (b ++ x) = c ++ x := by
  rw [← strAppendAssoc, h]

theorem strResplitLit (a b c d x : String) (h : a ++ b = c ++ d) :
    a ++ (b ++ x) = c ++ (d ++ x) := by
  rw [← strAppendAssoc, h, strAppendAssoc]

theorem canonEq8 (v1 v2 v3 v4 v5 v6 v7 v8 : JValue) :
    canonicalizeJSON [("cache_ttl", v1), ("cursor", v2), ("meta", v3), ("method", v4),
      ("name", v5), ("params", v6), ("prev_digest", v7), ("result", v8)] =
    "\x7b\"cache_ttl\":" ++ v1.stringify ++ ",\"cursor\":" ++ v2.stringify ++
    ",\"meta\":" ++ v3.stringify ++ ",\"method\":" ++ v4.stringify ++
    ",\"name\":" ++ v5.stringify ++ ",\"params\":" ++ v6.stringify ++
    ",\"prev_digest\":" ++ v7.stringify ++ ",\"result\":" ++ v8.stringify ++ "\x7d" := by
  simp [canonicalizeJSON, sortByKey, insertByKey, strLe, charListLe, JValue.stringify,
    stringifyObj, jsonQuote, jsonEscapeChar, strAppendAssoc,
    strMergeLit "\x7b" "\"cache_ttl\":" "\x7b\"cache_ttl\":" _ rfl,
    strMergeLit "," "\"cursor\":" ",\"cursor\":" _ rfl,
    strMergeLit "," "\"meta\":" ",\"meta\":" _ rfl,
    strMergeLit "," "\"method\":" ",\"method\":" _ rfl,
    strMergeLit "," "\"name\":" ",\"name\":" _ rfl,
    strMergeLit "," "\"params\":" ",\"params\":" _ rfl,
    strMergeLit "," "\"prev_digest\":" ",\"prev_digest\":" _ rfl,
    strMergeLit "," "\"result\":" ",\"result\":" _ rfl]

theorem jsOr_str_empty (s : String) : jsOr (some (.str s)) (.str "") = .str s := by
  by_cases h : s = "" <;> simp [jsOr, JValue.truthy, h]

theorem jsOr_null_idem (v : JValue) :
    jsOr (some (jsOr (some v) .null)) .null = jsOr (some v) .null := by
  by_cases h : v.truthy = true <;> simp [jsOr, h]

theorem jsOr_num_zero (n : Int) : jsOr (some (.num n)) (.num 0) = .num n := by
  by_cases h : n = 0 <;> simp [jsOr, JValue.truthy, h]

theorem lookup_env_cache_ttl (n m : JValue) (p r : String) (c pd : JValue) (me : String)
    (t : JValue) : List.lookup "cache_ttl" (envelopeObj n m p r c pd me t) = some t := rfl

theorem lookup_env_cursor (n m : JValue) (p r : String) (c pd : JValue) (me : String)
    (t : JValue) : List.lookup "cursor" (envelopeObj n m p r c pd me t) = some c := rfl

theorem lookup_env_meta (n m : JValue) (p r : String) (c pd : JValue) (me : String)
    (t : JValue) : List.lookup "meta" (envelopeObj n m p r c pd me t) = some (.str me) := rfl

theorem lookup_env_method (n m : JValue) (p r : String) (c pd : JValue) (me : String)
    (t : JValue) : List.lookup "method" (envelopeObj n m p r c pd me t) = some m := rfl

theorem lookup_env_name (n m : JValue) (p r : String) (c pd : JValue) (me : String)
    (t : JValue) : List.lookup "name" (envelopeObj n m p r c pd me t) = some n := rfl

theorem lookup_env_params (n m : JValue) (p r : String) (c pd : JValue) (me : String)
    (t : JValue) : List.lookup "params" (envelopeObj n m p r c pd me t) = some (.str p) := rfl

theorem lookup_env_prev_digest (n m : JValue) (p r : String) (c pd : JValue) (me : String)
    (t : JValue) : List.lookup "prev_digest" (envelopeObj n m p r c pd me t) = some pd := rfl

theorem lookup_env_result (n m : JValue) (p r : String) (c pd : JValue) (me : String)
    (t : JValue) : List.lookup "result" (envelopeObj n m p r c pd me t) = some (.str r) := rfl

theorem createEnvelope_digest_def (keccak : List Nat → List Nat) (sign : List Nat → SigRSV)
    (p : EnvelopeParams) :
    (createEnvelope keccak sign p).digest =
      computeDigest keccak (envelopeObj (createEnvelope keccak sign p).name
        (createEnvelope keccak sign p).method (createEnvelope keccak sign p).params
        (createEnvelope keccak sign p).result (createEnvelope keccak sign p).cursor
        (createEnvelope keccak sign p).prev_digest (createEnvelope keccak sign p).meta
        (createEnvelope keccak sign p).cache_ttl) := rfl

theorem computeDigest_envelopeObj (keccak : List Nat → List Nat) (n m : JValue)
    (ps rs : String) (c pd : JValue) (me : String) (t : JValue) :
    computeDigest keccak (envelopeObj n m ps rs c pd me t) =
    keccak (utf8Bytes (canonicalizeJSON
      [("cache_ttl", jsOr (some t) (.num 0)), ("cursor", jsOr (some c) .null),
       ("meta", jsOr (some (.str me)) (.str "")), ("method", jsOr (some m) (.str "")),
       ("name", jsOr (some n) (.str "")), ("params", jsOr (some (.str ps)) (.str "")),
       ("prev_digest", jsOr (some pd) .null),
       ("result", jsOr (some (.str rs)) (.str ""))])) := rfl

theorem createEnvelope_name_eq (keccak : List Nat → List Nat) (sign : List Nat → SigRSV)
    (p : EnvelopeParams) : (createEnvelope keccak sign p).name = p.name := rfl

theorem createEnvelope_method_eq (keccak : List Nat → List Nat) (sign : List Nat → SigRSV)
    (p : EnvelopeParams) : (createEnvelope keccak sign p).method = p.method := rfl

theorem createEnvelope_params_eq (keccak : List Nat → List Nat) (sign : List Nat → SigRSV)
    (p : EnvelopeParams) : (createEnvelope keccak sign p).params = strOrStringify p.params := rfl

theorem createEnvelope_result_eq (keccak : List Nat → List Nat) (sign : List Nat → SigRSV)
    (p : EnvelopeParams) : (createEnvelope keccak sign p).result = strOrStringify p.result := rfl

theorem createEnvelope_cursor_eq (keccak : List Nat → List Nat) (sign : List Nat → SigRSV)
    (p : EnvelopeParams) :
    (createEnvelope keccak sign p).cursor = jsOr (some (p.cursor.getD .null)) .null := rfl

theorem createEnvelope_prev_eq (keccak : List Nat → List Nat) (sign : List Nat → SigRSV)
    (p : EnvelopeParams) :
    (createEnvelope keccak sign p).prev_digest =
      jsOr (some (p.prevDigest.getD .null)) .null := rfl

theorem createEnvelope_meta_eq (keccak : List Nat → List Nat) (sign : List Nat → SigRSV)
    (p : EnvelopeParams) :
    (createEnvelope keccak sign p).meta = strOrStringify (p.meta.getD (.obj [])) := rfl

theorem createEnvelope_ttl_eq (keccak : List Nat → List Nat) (sign : List Nat → SigRSV)
    (p : EnvelopeParams) :
    (createEnvelope keccak sign p).cache_ttl = p.cacheTtl.getD (.num 30) := rfl

/-- C1: for every envelope produced by the envelope builder (with a string
`name` and `method` and a numeric or absent `cache_ttl`), the digest field
is the keccak-256 hash of the UTF-8 bytes of the canonical JSON of the
eight content fields (digest and signature excluded); that canonical JSON
lists the keys `cache_ttl`, `cursor`, `meta`, `method`, `name`, `params`,
`prev_digest`, `result` in ASCII-lexicographic order with no whitespace;
and when `cursor` (resp. `prev_digest`) is absent, the field is the
literal `null` and the preimage contains the substring
`,"cursor":null,` (resp. `,"prev_digest":null,`). -/
theorem C1_digest_is_canonical_keccak (keccak : List Nat → List Nat)
    (sign : List Nat → SigRSV) (p : EnvelopeParams)
    (hname : ∃ s, p.name = .str s) (hmethod : ∃ s, p.method = .str s)
    (hcache : p.cacheTtl = none ∨ ∃ n : Int, p.cacheTtl = some (.num n))
    (E : Envelope) (hE : E = createEnvelope keccak sign p) :
    E.digest = keccak (utf8Bytes (digestPreimage E)) ∧
    digestPreimage E =
      "\x7b\"cache_ttl\":" ++ E.cache_ttl.stringify ++ ",\"cursor\":" ++ E.cursor.stringify ++
      ",\"meta\":" ++ jsonQuote E.meta ++ ",\"method\":" ++ E.method.stringify ++
      ",\"name\":" ++ E.name.stringify ++ ",\"params\":" ++ jsonQuote E.params ++
      ",\"prev_digest\":" ++ E.prev_digest.stringify ++ ",\"result\":" ++ jsonQuote E.result ++
      "\x7d" ∧
    (p.cursor = none →
      E.cursor = .null ∧ strContainsSub (digestPreimage E) ",\"cursor\":null,") ∧
    (p.prevDigest = none →
      E.prev_digest = .null ∧ strContainsSub (digestPreimage E) ",\"prev_digest\":null,") := by
  obtain ⟨ns, hns⟩ := hname
  obtain ⟨ms, hms⟩ := hmethod
  have httl : ∃ n : Int, (createEnvelope keccak sign p).cache_ttl = .num n := by
    rcases hcache with hc | ⟨n, hc⟩
    · exact ⟨30, by rw [createEnvelope_ttl_eq, hc]; rfl⟩
    · exact ⟨n, by rw [createEnvelope_ttl_eq, hc]; rfl⟩
  obtain ⟨tn, htn⟩ := httl
  subst hE
  have hdig : (createEnvelope keccak sign p).digest =
      keccak (utf8Bytes (digestPreimage (createEnvelope keccak sign p))) := by
    rw [createEnvelope_digest_def, computeDigest_envelopeObj, digestPreimage,
      envelopeContentFields]
    simp only [createEnvelope_name_eq, createEnvelope_method_eq, createEnvelope_params_eq,
      createEnvelope_result_eq, createEnvelope_cursor_eq, createEnvelope_prev_eq,
      createEnvelope_meta_eq, htn, hns, hms, jsOr_num_zero, jsOr_null_idem, jsOr_str_empty]
  refine ⟨hdig, ?_, ?_, ?_⟩
  · rw [digestPreimage, envelopeContentFields, canonEq8]
    simp only [JValue.stringify]
  · intro hcur
    have hcv : (createEnvelope keccak sign p).cursor = .null := by
      rw [createEnvelope_cursor_eq, hcur]; rfl
    refine ⟨hcv, ?_⟩
    rw [digestPreimage, envelopeContentFields, canonEq8, hcv]
    refine ⟨"\x7b\"cache_ttl\":" ++ (createEnvelope keccak sign p).cache_ttl.stringify,
      "\"meta\":" ++ jsonQuote (createEnvelope keccak sign p).meta ++ ",\"method\":" ++
      (createEnvelope keccak sign p).method.stringify ++ ",\"name\":" ++
      (createEnvelope keccak sign p).name.stringify ++ ",\"params\":" ++
      jsonQuote (createEnvelope keccak sign p).params ++ ",\"prev_digest\":" ++
      (createEnvelope keccak sign p).prev_digest.stringify ++ ",\"result\":" ++
      jsonQuote (createEnvelope keccak sign p).result ++ "\x7d", ?_⟩
    simp only [JValue.stringify, strAppendAssoc,
      strMergeLit ",\"cursor\":" "null" ",\"cursor\":null" _ rfl,
      strResplitLit ",\"cursor\":null" ",\"meta\":" ",\"cursor\":null," "\"meta\":" _ rfl]
  · intro hprev
    have hpv : (createEnvelope keccak sign p).prev_digest = .null := by
      rw [createEnvelope_prev_eq, hprev]; rfl
    refine ⟨hpv, ?_⟩
    rw [digestPreimage, envelopeContentFields, canonEq8, hpv]
    refine ⟨"\x7b\"cache_ttl\":" ++ (createEnvelope keccak sign p).cache_ttl.stringify ++
      ",\"cursor\":" ++ (createEnvelope keccak sign p).cursor.stringify ++ ",\"meta\":" ++
      jsonQuote (createEnvelope keccak sign p).meta ++ ",\"method\":" ++
      (createEnvelope keccak sign p).method.stringify ++ ",\"name\":" ++
      (createEnvelope keccak sign p).name.stringify ++ ",\"params\":" ++
      jsonQuote (createEnvelope keccak sign p).params,
      "\"result\":" ++ jsonQuote (createEnvelope keccak sign p).result ++ "\x7d", ?_⟩
    simp only [JValue.stringify, strAppendAssoc,
      strMergeLit ",\"prev_digest\":" "null" ",\"prev_digest\":null" _ rfl,
      strResplitLit ",\"prev_digest\":null" ",\"result\":" ",\"prev_digest\":null," "\"result\":" _ rfl]

theorem stringify_str_eq (s : String) : (JValue.str s).stringify = jsonQuote s := rfl

/-- Witness for C1 at a concrete input: absent `cursor`/`prev_digest`, all
hypotheses discharged by `rfl`. -/
theorem C1_digest_is_canonical_keccak_witness :
    (createEnvelope kecc0 sign0 pAllAbsent).digest =
      kecc0 (utf8Bytes (digestPreimage (createEnvelope kecc0 sign0 pAllAbsent))) ∧
    (createEnvelope kecc0 sign0 pAllAbsent).cursor = JValue.null ∧
    strContainsSub (digestPreimage (createEnvelope kecc0 sign0 pAllAbsent))
      ",\"cursor\":null," ∧
    strContainsSub (digestPreimage (createEnvelope kecc0 sign0 pAllAbsent))
      ",\"prev_digest\":null," := by
  have h := C1_digest_is_canonical_keccak kecc0 sign0 pAllAbsent
    ⟨"pricefeed.eth", rfl⟩ ⟨"pricefeed", rfl⟩ (Or.inl rfl) _ rfl
  exact ⟨h.1, (h.2.2.1 rfl).1, (h.2.2.1 rfl).2, (h.2.2.2 rfl).2⟩

/-- C10: `computeDigest` conflates falsy field values with absent ones:
an envelope with `cursor: ""` has the same digest as one with
`cursor: null`, likewise for `prev_digest`, and `cache_ttl: 0` digests the
same as an absent `cache_ttl`, because every field is defaulted through
`||`. -/
theorem C10_computeDigest_conflates_falsy (keccak : List Nat → List Nat)
    (name method params result meta prev cur ttl : JValue) :
    (computeDigest keccak
        [("name", name), ("method", method), ("params", params), ("result", result),
         ("cursor", .str ""), ("prev_digest", prev), ("meta", meta), ("cache_ttl", ttl)] =
      computeDigest keccak
        [("name", name), ("method", method), ("params", params), ("result", result),
         ("cursor", .null), ("prev_digest", prev), ("meta", meta), ("cache_ttl", ttl)]) ∧
    (computeDigest keccak
        [("name", name), ("method", method), ("params", params), ("result", result),
         ("cursor", cur), ("prev_digest", .str ""), ("meta", meta), ("cache_ttl", ttl)] =
      computeDigest keccak
        [("name", name), ("method", method), ("params", params), ("result", result),
         ("cursor", cur), ("prev_digest", .null), ("meta", meta), ("cache_ttl", ttl)]) ∧
    (computeDigest keccak
        [("name", name), ("method", method), ("params", params), ("result", result),
         ("cursor", cur), ("prev_digest", prev), ("meta", meta), ("cache_ttl", .num 0)] =
      computeDigest keccak
        [("name", name), ("method", method), ("params", params), ("result", result),
         ("cursor", cur), ("prev_digest", prev), ("meta", meta)]) :=
  ⟨rfl, rfl, rfl⟩

/-- C7 (amended): in `createEnvelope`, a missing `cache_ttl` defaults to
30 while a present one — `0` included — is kept verbatim (so the built
value can also be 30 when 30 is passed explicitly); a missing `cursor` or
`prev_digest` defaults to `null`; a missing `meta` defaults to the string
`"{}"`. -/
theorem C7_builder_defaults (keccak : List Nat → List Nat) (sign : List Nat → SigRSV)
    (p : EnvelopeParams) :
    (p.cacheTtl = none → (createEnvelope keccak sign p).cache_ttl = .num 30) ∧
    (∀ v, p.cacheTtl = some v → (createEnvelope keccak sign p).cache_ttl = v) ∧
    (p.cursor = none → (createEnvelope keccak sign p).cursor = .null) ∧
    (p.prevDigest = none → (createEnvelope keccak sign p).prev_digest = .null) ∧
    (p.meta = none → (createEnvelope keccak sign p).meta = "\x7b\x7d") := by
  refine ⟨?_, ?_, ?_, ?_, ?_⟩
  · intro h; rw [createEnvelope_ttl_eq, h]; rfl
  · intro v h; rw [createEnvelope_ttl_eq, h]; rfl
  · intro h; rw [createEnvelope_cursor_eq, h]; rfl
  · intro h; rw [createEnvelope_prev_eq, h]; rfl
  · intro h; rw [createEnvelope_meta_eq, h]; rfl

/-- Counterexample to C7 as stated: the built envelope's `cache_ttl` is 30
although the field is present in the input, so "`cache_ttl` is 30 exactly
when the field is absent" fails in the only-if direction. -/
theorem C7_builder_defaults_counterexample :
    (createEnvelope kecc0 sign0 pTtl30).cache_ttl = .num 30 ∧
    pTtl30.cacheTtl = some (.num 30) ∧ pTtl30.cacheTtl ≠ none :=
  ⟨rfl, rfl, by simp [pTtl30]⟩

/-- Witness for C7 at a concrete input with every optional field absent. -/
theorem C7_builder_defaults_witness :
    (createEnvelope kecc0 sign0 pAllAbsent).cache_ttl = .num 30 ∧
    (createEnvelope kecc0 sign0 pAllAbsent).cursor = JValue.null ∧
    (createEnvelope kecc0 sign0 pAllAbsent).prev_digest = JValue.null ∧
    (createEnvelope kecc0 sign0 pAllAbsent).meta = "\x7b\x7d" := by
  have h := C7_builder_defaults kecc0 sign0 pAllAbsent
  exact ⟨h.1 rfl, h.2.2.1 rfl, h.2.2.2.1 rfl, h.2.2.2.2 rfl⟩

theorem createEnvelope_signature_def (keccak : List Nat → List Nat)
    (sign : List Nat → SigRSV) (p : EnvelopeParams) :
    (createEnvelope keccak sign p).signature =
      (sign (keccak (eip191Bytes ++ (createEnvelope keccak sign p).digest))).r ++
      (sign (keccak (eip191Bytes ++ (createEnvelope keccak sign p).digest))).s ++
      [(sign (keccak (eip191Bytes ++ (createEnvelope keccak sign p).digest))).v] := rfl

/-- C2: for every envelope produced by the builder with a signing
primitive satisfying the ethers contract (`SignerSpec`), the signature is
the 65-byte serialization `r (32) ‖ s (32) ‖ v (1)` of the raw signature
over `keccak256("\x19Ethereum Signed Message:\n32" ‖ digest)`, with
`v ∈ {27, 28}`, low-S normalization, and `ecrecover` of that message hash
recovering the configured signer's address. -/
theorem C2_signature_eip191_recoverable (keccak : List Nat → List Nat)
    (sign : List Nat → SigRSV) (ecrecover : List Nat → List Nat → Option (List Nat))
    (addr : List Nat) (hspec : SignerSpec sign ecrecover addr) (p : EnvelopeParams)
    (E : Envelope) (hE : E = createEnvelope keccak sign p)
    (mh : List Nat) (hmh : mh = keccak (eip191Bytes ++ E.digest)) :
    E.signature = (sign mh).r ++ (sign mh).s ++ [(sign mh).v] ∧
    (sign mh).r.length = 32 ∧ (sign mh).s.length = 32 ∧ E.signature.length = 65 ∧
    ((sign mh).v = 27 ∨ (sign mh).v = 28) ∧
    bytesToNat (sign mh).s ≤ secpOrder / 2 ∧
    ecrecover mh E.signature = some addr ∧
    eip191Bytes = 25 :: utf8Bytes "Ethereum Signed Message:\n32" := by
  subst hE; subst hmh
  refine ⟨createEnvelope_signature_def keccak sign p, hspec.rLen _, hspec.sLen _, ?_,
    hspec.vRange _, hspec.lowS _, ?_, rfl⟩
  · rw [createEnvelope_signature_def]
    simp [List.length_append, hspec.rLen, hspec.sLen]
  · rw [createEnvelope_signature_def]
    exact hspec.recovers _

/-- `sign0` and `ecrecover0` satisfy the signing contract. -/
theorem signerSpec0 : SignerSpec sign0 ecrecover0 addr0 := by
  refine ⟨fun h => ?_, fun h => ?_, fun h => Or.inl rfl, fun h => ?_, fun h => rfl⟩
  · simp [sign0]
  · simp [sign0]
  · show bytesToNat (List.replicate 32 0) ≤ secpOrder / 2
    decide

/-- Witness for C2 at a concrete input and a concrete signing model. -/
theorem C2_signature_eip191_recoverable_witness :
    (createEnvelope kecc0 sign0 pAllAbsent).signature.length = 65 ∧
    ecrecover0 (kecc0 (eip191Bytes ++ (createEnvelope kecc0 sign0 pAllAbsent).digest))
      (createEnvelope kecc0 sign0 pAllAbsent).signature = some addr0 := by
  have h := C2_signature_eip191_recoverable kecc0 sign0 ecrecover0 addr0 signerSpec0
    pAllAbsent _ rfl _ rfl
  exact ⟨h.2.2.2.1, h.2.2.2.2.2.2.1⟩

theorem ne_empty_of_starts0x (s : String) (h : strStartsWith0x s = true) : s ≠ "" := by
  intro he
  subst he
  exact absurd h (by decide)

/-- C4 (amended): empty or missing `data` decodes to the defaults
(`"pricefeed"`, `{}`) with no warning; a failed ABI decode of a hex string
and a failed `JSON.parse` of a non-hex string fall back to both defaults;
but a failed parse of the ABI-decoded params bytes is caught by the inner
`try`, so only `params` falls back to `{}` while the method keeps the
ABI-decoded name. -/
theorem C4_decode_error_fallbacks (libs : JsLibs) :
    decodeCallData libs none = ⟨.str "pricefeed", .obj [], []⟩ ∧
    decodeCallData libs (some (.str "")) = ⟨.str "pricefeed", .obj [], []⟩ ∧
    (∀ s e, strStartsWith0x s = true → libs.abiDecodeStringBytes s = .error e →
      decodeCallData libs (some (.str s)) =
        ⟨.str "pricefeed", .obj [], ["Could not decode call data, using defaults"]⟩) ∧
    (∀ s e, strStartsWith0x s = false → s ≠ "" → libs.jsonParse s = .error e →
      decodeCallData libs (some (.str s)) =
        ⟨.str "pricefeed", .obj [], ["Could not decode call data, using defaults"]⟩) ∧
    (∀ s nm bs u e, strStartsWith0x s = true →
      libs.abiDecodeStringBytes s = .ok (nm, bs) → bs ≠ [] →
      libs.toUtf8String bs = .ok u → libs.jsonParse u = .error e →
      decodeCallData libs (some (.str s)) =
        ⟨jsOr (some (.str nm)) (.str "pricefeed"), .obj [], ["Could not parse params JSON"]⟩) := by
  refine ⟨rfl, rfl, ?_, ?_, ?_⟩
  · intro s e h0x habi
    have hne : s ≠ "" := ne_empty_of_starts0x s h0x
    simp [decodeCallData, dataEnterBranch, hne, h0x, habi]
  · intro s e h0x hne hjson
    simp [decodeCallData, dataEnterBranch, hne, h0x, hjson]
  · intro s nm bs u e h0x habi hbs hutf hjson
    have hne : s ≠ "" := ne_empty_of_starts0x s h0x
    have hlen : bs.length ≠ 0 := by
      intro h
      exact hbs (List.length_eq_zero.mp h)
    simp [decodeCallData, dataEnterBranch, hne, h0x, habi, hlen, hutf, hjson]

set_option maxRecDepth 100000 in
/-- Counterexample to C4 as stated: when the ABI decode succeeds with
method `"daovotes"` but the decoded params bytes fail to parse as JSON,
the decoder keeps the decoded method instead of falling back to
`"pricefeed"`. -/
theorem C4_decode_error_fallbacks_counterexample :
    decodeCallData cxLibs (some (.str cxHex)) =
      ⟨.str "daovotes", .obj [], ["Could not parse params JSON"]⟩ ∧
    cxLibs.jsonParse "notjson" = .error "Unexpected token" ∧
    JValue.str "daovotes" ≠ JValue.str "pricefeed" := by
  refine ⟨?_, rfl, ?_⟩
  · rfl
  · intro h
    injection h with h2
    exact absurd h2 (by decide)

set_option maxRecDepth 100000 in
/-- Witness for C4 at concrete inputs. -/
theorem C4_decode_error_fallbacks_witness :
    decodeCallData cxLibs none = ⟨.str "pricefeed", .obj [], []⟩ ∧
    decodeCallData cxLibs (some (.str cxHex)) =
      ⟨jsOr (some (.str "daovotes")) (.str "pricefeed"), .obj [],
        ["Could not parse params JSON"]⟩ := by
  have h := C4_decode_error_fallbacks cxLibs
  refine ⟨h.1, ?_⟩
  refine h.2.2.2.2 cxHex "daovotes" (utf8Bytes "notjson") "notjson" "Unexpected token"
    rfl ?_ (by decide) ?_ rfl
  · show (if cxHex = cxHex then
      Except.ok ("daovotes", utf8Bytes "notjson") else .error "could not decode") =
      .ok ("daovotes", utf8Bytes "notjson")
    rw [if_pos rfl]
  · show (if utf8Bytes "notjson" = utf8Bytes "notjson" then
      Except.ok "notjson" else .error "invalid utf8") = .ok "notjson"
    rw [if_pos rfl]

/-- C8: `executeCompute` dispatches a registered name to its function and
throws `Unknown compute function: <name>` for an unregistered one.  In the
pipeline, that thrown error reaches the route's `catch` block, which reads
the `try`-scoped `let functionName`; this raises a `ReferenceError`, so no
500 response is sent and no error metric is recorded — the handler
crashes instead of responding (the code bug). -/
theorem C8_unknown_method_dispatch (impls : ComputeImpls) (name : String) (params : JValue) :
    ((computeFunctions impls).lookup name = none →
      executeCompute impls name params = .error ("Unknown compute function: " ++ name)) ∧
    (∀ f, (computeFunctions impls).lookup name = some f →
      executeCompute impls name params = f params) ∧
    lookupHandler deps0 bodyUnknownMethod =
      .crashed "ReferenceError: functionName is not defined" ∧
    executeCompute impls0 "nosuch" (.obj []) = .error "Unknown compute function: nosuch" := by
  refine ⟨?_, ?_, ?_, rfl⟩
  · intro h
    simp [executeCompute, h]
  · intro f h
    simp [executeCompute, h]
  · have h1 : validateRequest deps0.namehashOk bodyUnknownMethod =
        .ok bodyUnknownMethod := rfl
    have hn : (jsOr (List.lookup "node" bodyUnknownMethod) .null).truthy = true := rfl
    have hd : decodeCallData deps0.libs (List.lookup "data" bodyUnknownMethod) =
        ⟨.str "nosuch", .obj [], []⟩ := rfl
    have h2 : executeCompute deps0.impls "nosuch" (JValue.obj []) =
        Except.error "Unknown compute function: nosuch" := rfl
    simp [lookupHandler, h1, hn, hd, h2, jsToString]

/-- Witness for C8 at concrete inputs: `"nosuch"` is unregistered,
`"pricefeed"` dispatches to its implementation. -/
theorem C8_unknown_method_dispatch_witness :
    executeCompute impls0 "nosuch" (.obj []) = .error ("Unknown compute function: " ++ "nosuch") ∧
    executeCompute impls0 "pricefeed" (.obj []) = impls0.pricefeed (.obj []) := by
  refine ⟨(C8_unknown_method_dispatch impls0 "nosuch" (.obj [])).1 rfl, ?_⟩
  exact (C8_unknown_method_dispatch impls0 "pricefeed" (.obj [])).2.1 impls0.pricefeed rfl

/-- C9 (amended): every request that passes validation and has a falsy or
absent `node` receives 400 `Missing node parameter` before any call-data
decoding, dispatch or signing — the validator itself treats `node` as
optional. -/
theorem C9_missing_node_rejected (d : GatewayDeps) (body b : JObj)
    (hval : validateRequest d.namehashOk body = .ok b)
    (hnode : (jsOr (b.lookup "node") .null).truthy = false) :
    lookupHandler d body =
      .responded ⟨400, [("error", .str "Missing node parameter")], [], 0, []⟩ := by
  simp [lookupHandler, hval, hnode]

/-- Counterexample to C9 as stated: a body with no `node` field that also
fails validation gets the 400 `Validation failed` response, not
`Missing node parameter`. -/
theorem C9_missing_node_rejected_counterexample :
    List.lookup "node" bodyBadName = none ∧
    lookupHandler deps0 bodyBadName =
      .responded ⟨400, validationFailedBody ["Invalid ENS name"], [], 0, []⟩ ∧
    validationFailedBody ["Invalid ENS name"] ≠
      [("error", .str "Missing node parameter")] := by
  refine ⟨rfl, rfl, ?_⟩
  intro h
  have h2 := List.head_eq_of_cons_eq h
  injection h2 with h3 h4
  injection h4 with h5
  exact absurd h5 (by decide)

/-- Witness for C9: the empty body passes validation and has no `node`. -/
theorem C9_missing_node_rejected_witness :
    lookupHandler deps0 [] =
      .responded ⟨400, [("error", .str "Missing node parameter")], [], 0, []⟩ :=
  C9_missing_node_rejected deps0 [] [] rfl rfl

theorem truthy_of_long_stringify (dv : JValue) (h : 100000 < (JValue.stringify dv).length) :
    dv.truthy = true := by
  cases dv with
  | null => exact absurd h (by decide)
  | bool b => cases b <;> exact absurd h (by decide)
  | num n =>
    by_cases hn : n = 0
    · subst hn; exact absurd h (by decide)
    · simp [JValue.truthy, hn]
  | str s =>
    by_cases hs : s = ""
    · subst hs; exact absurd h (by decide)
    · simp [JValue.truthy, hs]
  | arr l => rfl
  | obj l => rfl

theorem isEmpty_append_middle (A B C : List String) (x : String) :
    (A ++ B ++ [x] ++ C).isEmpty = false := by
  cases hA : A ++ B ++ [x] ++ C with
  | nil =>
    exfalso
    simp only [List.append_eq_nil] at hA
    exact List.cons_ne_nil x [] hA.1.2
  | cons h t => rfl

theorem validateRequest_data_too_large (nk : String → Bool) (body : JObj) (dv : JValue)
    (hdv : List.lookup "data" body = some dv)
    (h : 100000 < (JValue.stringify dv).length) :
    ∃ errs, validateRequest nk body = .error errs ∧
      "Request data too large (max 100KB)" ∈ errs := by
  have htr : dv.truthy = true := truthy_of_long_stringify dv h
  unfold validateRequest
  rw [hdv]
  simp only [htr, if_pos h, if_true, isEmpty_append_middle, Bool.false_eq_true, if_false]
  refine ⟨_, rfl, ?_⟩
  simp

/-- C6: whenever any validation rule fails, `POST /lookup` responds 400
with `{error: "Validation failed", details: [...]}` and neither decodes
call data, nor dispatches a compute function, nor signs anything; in
particular a `data` field whose serialization exceeds 100 KiB always
fails validation with the `Request data too large (max 100KB)` reason. -/
theorem C6_validation_failure_short_circuits (d : GatewayDeps) (body : JObj) :
    (∀ errs, validateRequest d.namehashOk body = .error errs →
      lookupHandler d body = .responded ⟨400, validationFailedBody errs, [], 0, []⟩) ∧
    (∀ dv, List.lookup "data" body = some dv →
      102400 < (JValue.stringify dv).length →
      ∃ errs, validateRequest d.namehashOk body = .error errs ∧
        "Request data too large (max 100KB)" ∈ errs ∧
        lookupHandler d body = .responded ⟨400, validationFailedBody errs, [], 0, []⟩) := by
  have hfirst : ∀ errs, validateRequest d.namehashOk body = .error errs →
      lookupHandler d body = .responded ⟨400, validationFailedBody errs, [], 0, []⟩ := by
    intro errs h
    simp [lookupHandler, h]
  refine ⟨hfirst, ?_⟩
  intro dv hdv hbig
  obtain ⟨errs, herrs, hmem⟩ := validateRequest_data_too_large d.namehashOk body dv hdv
    (Nat.lt_trans (by decide) hbig)
  exact ⟨errs, herrs, hmem, hfirst errs herrs⟩

theorem length_flatten_replicate_single (n : Nat) (c : Char) :
    (List.replicate n [c]).flatten.length = n := by
  induction n with
  | zero => rfl
  | succ k ih => simp [List.replicate_succ, ih]

theorem stringify_big_len : (JValue.stringify bigStr).length = 102403 := by
  show ('"' :: ((List.replicate 102401 'a').map jsonEscapeChar).flatten ++ ['"']).length = 102403
  have hech : jsonEscapeChar 'a' = ['a'] := rfl
  rw [List.map_replicate, hech, List.length_append, List.length_cons,
    length_flatten_replicate_single, List.length_singleton]

theorem validate_bodyBig :
    validateRequest deps0.namehashOk bodyBig =
      .error ["Request data too large (max 100KB)"] := by
  have h1 : List.lookup "node" bodyBig = some (.str nodeHex0) := rfl
  have h2 : List.lookup "name" bodyBig = none := rfl
  have h3 : List.lookup "data" bodyBig = some bigStr := rfl
  have htr : bigStr.truthy = true := by
    apply truthy_of_long_stringify
    rw [stringify_big_len]
    omega
  have hnodetr : (JValue.str nodeHex0).truthy = true := rfl
  have hnode_ok : isValidNode deps0.namehashOk (.str nodeHex0) = true := rfl
  have hsize : 100000 < (JValue.stringify bigStr).length := by
    rw [stringify_big_len]
    omega
  unfold validateRequest
  rw [h1, h2, h3]
  simp only [htr, hnodetr, hnode_ok, if_pos hsize, if_true]
  rfl

/-- Witness for C6 at a concrete oversized request. -/
theorem C6_validation_failure_short_circuits_witness :
    validateRequest deps0.namehashOk bodyBig =
      .error ["Request data too large (max 100KB)"] ∧
    lookupHandler deps0 bodyBig =
      .responded ⟨400, validationFailedBody ["Request data too large (max 100KB)"],
        [], 0, []⟩ := by
  obtain ⟨errs, h1, hmem, h2⟩ :=
    (C6_validation_failure_short_circuits deps0 bodyBig).2 bigStr rfl
      (by rw [stringify_big_len]; omega)
  have he : errs = ["Request data too large (max 100KB)"] := by
    rw [validate_bodyBig] at h1
    exact (Except.error.injEq _ _ ▸ h1).symm
  subst he
  exact ⟨validate_bodyBig, h2⟩

/-- C3: for a request that passes validation, has a truthy node and whose
dispatch succeeds, the pipeline takes the envelope path whenever
`useEnvelope` is not the literal `false`: the response `data` is the
ABI encoding of the single envelope tuple in wire order
`(name, method, params, result, cursor, prev_digest, meta, cache_ttl,
digest, signature)` with an absent `cursor` passed as the empty string and
an absent `prev_digest` passed as `ethers.ZeroHash` (32 zero bytes), and
the response also carries the `envelope` JSON.  When `useEnvelope` is the
literal `false`, the response `data` is the ABI encoding of
`(bytes, bytes)` — the UTF-8 JSON of the result and the signature over
it — and the response has no `envelope` key. -/
theorem C3_envelope_vs_legacy_encoding (d : GatewayDeps) (body b : JObj)
    (hval : validateRequest d.namehashOk body = .ok b)
    (hnode : (jsOr (b.lookup "node") .null).truthy = true)
    (dec : DecodeOut) (hdec : dec = decodeCallData d.libs (b.lookup "data"))
    (result : JValue)
    (hexec : executeCompute d.impls (jsToString dec.fn) dec.params = .ok result)
    (E : Envelope)
    (hE : E = createEnvelope d.libs.keccak d.libs.sign
      ⟨jsOr (b.lookup "name") (.str "unknown.eth"), dec.fn, dec.params, result,
        some (jsOr (jsGetSafe dec.params "cursor") .null),
        some (jsOr (jsGetSafe dec.params "prevDigest") .null),
        some (.obj [("provider", .str "ens-compute-gateway"), ("version", .str "1.0.0"),
          ("nonce", .num d.nonce), ("timestamp", .num d.ts)]),
        some (jsOr (jsGetSafe dec.params "cacheTtl") (.num 30))⟩) :
    (isLiteralFalse (b.lookup "useEnvelope") = false → dec.params.isNull = false →
      lookupHandler d body = .responded ⟨200,
        [("data", .str (d.libs.abiEncodeEnvelopeTuple E.name E.method E.params E.result
            (jsOr (some E.cursor) (.str "")) (jsOr (some E.prev_digest) (.str zeroHashHex))
            E.meta E.cache_ttl E.digest E.signature)),
         ("envelope", envelopeJson E)],
        [jsToString dec.fn], 1,
        [.request (jsToString dec.fn) true (d.endMs - d.startMs), .signatureGenerated]⟩) ∧
    (E.cursor = .null → jsOr (some E.cursor) (.str "") = .str "") ∧
    (E.prev_digest = .null → jsOr (some E.prev_digest) (.str zeroHashHex) = .str zeroHashHex) ∧
    (isLiteralFalse (b.lookup "useEnvelope") = true →
      lookupHandler d body = .responded ⟨200,
        [("data", .str (d.libs.abiEncodeBytesBytes (utf8Bytes result.stringify)
          (signResult d.libs.keccak d.libs.sign result)))],
        [jsToString dec.fn], 1,
        [.request (jsToString dec.fn) true (d.endMs - d.startMs), .signatureGenerated]⟩ ∧
      List.lookup "envelope"
        [("data", JValue.str (d.libs.abiEncodeBytesBytes (utf8Bytes result.stringify)
          (signResult d.libs.keccak d.libs.sign result)))] = none) := by
  subst hdec
  refine ⟨?_, ?_, ?_, ?_⟩
  · intro hue hpn
    subst hE
    simp [lookupHandler, hval, hnode, hue, hpn, hexec]
  · intro hc
    rw [hc]
    rfl
  · intro hp
    rw [hp]
    rfl
  · intro hue
    simp [lookupHandler, hval, hnode, hue, hexec]

/-- Witness for C3: both paths evaluated at concrete requests. -/
theorem C3_envelope_vs_legacy_encoding_witness :
    lookupHandler deps0 bodyEnvPath = .responded ⟨200,
      [("data", .str (deps0.libs.abiEncodeEnvelopeTuple E3.name E3.method E3.params E3.result
          (jsOr (some E3.cursor) (.str "")) (jsOr (some E3.prev_digest) (.str zeroHashHex))
          E3.meta E3.cache_ttl E3.digest E3.signature)),
       ("envelope", envelopeJson E3)],
      ["pricefeed"], 1,
      [.request "pricefeed" true (deps0.endMs - deps0.startMs), .signatureGenerated]⟩ ∧
    jsOr (some E3.cursor) (.str "") = .str "" ∧
    jsOr (some E3.prev_digest) (.str zeroHashHex) = .str zeroHashHex ∧
    lookupHandler deps0 bodyLegacyPath = .responded ⟨200,
      [("data", .str (deps0.libs.abiEncodeBytesBytes (utf8Bytes (JValue.obj []).stringify)
        (signResult deps0.libs.keccak deps0.libs.sign (.obj []))))],
      ["pricefeed"], 1,
      [.request "pricefeed" true (deps0.endMs - deps0.startMs), .signatureGenerated]⟩ := by
  have h1 := C3_envelope_vs_legacy_encoding deps0 bodyEnvPath bodyEnvPath rfl rfl
    ⟨.str "pricefeed", .obj [], []⟩ rfl (.obj []) rfl E3 rfl
  have h2 := C3_envelope_vs_legacy_encoding deps0 bodyLegacyPath bodyLegacyPath rfl rfl
    ⟨.str "pricefeed", .obj [], []⟩ rfl (.obj []) rfl E3 rfl
  exact ⟨h1.1 rfl rfl, h1.2.1 rfl, h1.2.2.1 rfl, (h2.2.2.2 rfl).1⟩

theorem evictOld_decomp (ws : Int) (l : List Int) :
    ∃ E, l = E ++ evictOld ws l ∧ ∀ x ∈ E, x < ws := by
  induction l with
  | nil => exact ⟨[], rfl, by simp⟩
  | cons t rest ih =>
    by_cases h : t < ws
    · obtain ⟨E, hE, hEs⟩ := ih
      refine ⟨t :: E, ?_, ?_⟩
      · have he : evictOld ws (t :: rest) = evictOld ws rest := by
          simp [evictOld, h]
        rw [he, List.cons_append]
        exact congrArg (t :: ·) hE
      · intro x hx
        rcases List.mem_cons.mp hx with hx | hx
        · subst hx; exact h
        · exact hEs x hx
    · refine ⟨[], ?_, by simp⟩
      simp [evictOld, h]

theorem check_deny (lim : RateLimiter) (now : Int) (st : List Int)
    (h : lim.maxRequests ≤ (evictOld (now - lim.windowMs) st).length) :
    lim.check now st = (false, evictOld (now - lim.windowMs) st) := by
  simp [RateLimiter.check, h]

theorem check_allow (lim : RateLimiter) (now : Int) (st : List Int)
    (h : ¬ lim.maxRequests ≤ (evictOld (now - lim.windowMs) st).length) :
    lim.check now st = (true, evictOld (now - lim.windowMs) st ++ [now]) := by
  simp [RateLimiter.check, h]

theorem admittedTimes_nil (lim : RateLimiter) (st : List Int) :
    admittedTimes lim st [] = [] := rfl

theorem admittedTimes_cons (lim : RateLimiter) (st : List Int) (now : Int)
    (rest : List Int) :
    admittedTimes lim st (now :: rest) =
      (if (lim.check now st).1 then [now] else []) ++
        admittedTimes lim (lim.check now st).2 rest := by
  by_cases h : (lim.check now st).1 <;> simp [admittedTimes, h]

theorem rl_window_gen (lim : RateLimiter) (a : Int) (p : Int → Bool)
    (hp : ∀ t, p t = true ↔ a ≤ t ∧ t ≤ a + lim.windowMs) (trace : List Int) :
    ∀ (D st : List Int),
      trace.Pairwise (· ≤ ·) →
      (∀ x ∈ st, ∀ y ∈ trace, x ≤ y) →
      (∀ x ∈ D, ∀ y ∈ trace, x < y - lim.windowMs) →
      (D ++ st).countP p ≤ lim.maxRequests →
      ((D ++ st) ++ admittedTimes lim st trace).countP p ≤ lim.maxRequests := by
  induction trace with
  | nil =>
    intro D st htr hcross hD hcount
    simpa [admittedTimes_nil] using hcount
  | cons now rest ih =>
    intro D st htr hcross hD hcount
    have hnowle : ∀ y ∈ rest, now ≤ y := (List.pairwise_cons.mp htr).1
    have htr' : rest.Pairwise (· ≤ ·) := (List.pairwise_cons.mp htr).2
    obtain ⟨E, hsplit, hEsmall⟩ := evictOld_decomp (now - lim.windowMs) st
    have hsum : st.countP p = E.countP p + (evictOld (now - lim.windowMs) st).countP p := by
      conv_lhs => rw [hsplit]
      simp [List.countP_append]
    have hcross' : ∀ x ∈ evictOld (now - lim.windowMs) st, ∀ y ∈ rest, x ≤ y := by
      intro x hx y hy
      have hxst : x ∈ st := by
        rw [hsplit]; exact List.mem_append_right E hx
      exact hcross x hxst y (List.mem_cons_of_mem now hy)
    have hD' : ∀ x ∈ D ++ E, ∀ y ∈ rest, x < y - lim.windowMs := by
      intro x hx y hy
      rcases List.mem_append.mp hx with hx | hx
      · exact hD x hx y (List.mem_cons_of_mem now hy)
      · have h1 : x < now - lim.windowMs := hEsmall x hx
        have h2 : now ≤ y := hnowle y hy
        omega
    by_cases hfull : lim.maxRequests ≤ (evictOld (now - lim.windowMs) st).length
    · rw [admittedTimes_cons, check_deny lim now st hfull]
      have hih := ih (D ++ E) (evictOld (now - lim.windowMs) st) htr' hcross' hD' (by
        simp only [List.countP_append] at hcount ⊢
        omega)
      simp only [List.countP_append] at hih hcount
      simp [List.countP_append, List.countP_cons, List.countP_nil]
      omega
    · rw [admittedTimes_cons, check_allow lim now st hfull]
      have hlen : (evictOld (now - lim.windowMs) st).length < lim.maxRequests := by omega
      have hevlen : (evictOld (now - lim.windowMs) st).countP p ≤
          (evictOld (now - lim.windowMs) st).length := List.countP_le_length _
      have hcount' : ((D ++ E) ++ (evictOld (now - lim.windowMs) st ++ [now])).countP p ≤
          lim.maxRequests := by
        by_cases hP : p now = true
        · have hPn : a ≤ now ∧ now ≤ a + lim.windowMs := (hp now).mp hP
          have hDzero : D.countP p = 0 := by
            rw [List.countP_eq_zero]
            intro x hx hpx
            have h1 : x < now - lim.windowMs := hD x hx now (List.mem_cons_self now rest)
            have h2 : a ≤ x := ((hp x).mp hpx).1
            omega
          have hEzero : E.countP p = 0 := by
            rw [List.countP_eq_zero]
            intro x hx hpx
            have h1 : x < now - lim.windowMs := hEsmall x hx
            have h2 : a ≤ x := ((hp x).mp hpx).1
            omega
          simp only [List.countP_append, List.countP_cons, List.countP_nil, hP, if_true,
            hDzero, hEzero]
          omega
        · have hP0 : p now = false := by
            cases h : p now
            · rfl
            · exact absurd h hP
          simp only [List.countP_append, List.countP_cons, List.countP_nil, hP0,
            if_neg Bool.false_ne_true] at hcount ⊢
          omega
      have hcross2 : ∀ x ∈ evictOld (now - lim.windowMs) st ++ [now], ∀ y ∈ rest, x ≤ y := by
        intro x hx y hy
        rcases List.mem_append.mp hx with hx | hx
        · exact hcross' x hx y hy
        · have hxe : x = now := by simpa using hx
          subst hxe
          exact hnowle y hy
      have hih := ih (D ++ E) (evictOld (now - lim.windowMs) st ++ [now]) htr' hcross2 hD'
        hcount'
      simp only [List.countP_append, List.countP_cons, List.countP_nil] at hih
      simp [List.countP_append, List.countP_cons, List.countP_nil]
      omega

/-- C5: under any limiter, for every key the sliding log admits at most
`maxRequests` requests whose timestamps fall in any closed interval of
length `windowMs` (the `Date.now()` readings of successive calls being
nondecreasing); the `ip` limiter is (60 s, 100) and the `apiKey` limiter
(60 s, 1000), selected by presence of a truthy `X-API-Key` header; a
denied request only evicts (never appends to) the key's timestamp list;
and the denial response is 429 with
`{error: "Rate limit exceeded", retryAfter: 60, remaining: 0}`. -/
theorem C5_sliding_window_rate_limit (lim : RateLimiter) (trace : List Int)
    (htrace : trace.Pairwise (· ≤ ·)) :
    (∀ a : Int, (admittedTimes lim [] trace).countP
        (fun t => decide (a ≤ t) && decide (t ≤ a + lim.windowMs)) ≤ lim.maxRequests) ∧
    ipRateLimiter.windowMs = 60000 ∧ ipRateLimiter.maxRequests = 100 ∧
    apiKeyRateLimiter.windowMs = 60000 ∧ apiKeyRateLimiter.maxRequests = 1000 ∧
    (∀ r : RLRequest, selectLimiter r =
      if headerTruthy r.apiKeyHeader then apiKeyRateLimiter else ipRateLimiter) ∧
    (∀ now st, (lim.check now st).1 = false →
      (lim.check now st).2 = evictOld (now - lim.windowMs) st ∧
      (lim.check now st).2 <:+ st) ∧
    (∀ r now st, ((selectLimiter r).check now st).1 = false →
      rateLimitMiddleware r st now =
        (some (429, [("error", .str "Rate limit exceeded"), ("retryAfter", .num 60),
          ("remaining", .num 0)]), ((selectLimiter r).check now st).2)) := by
  refine ⟨?_, rfl, rfl, rfl, rfl, fun r => rfl, ?_, ?_⟩
  · intro a
    have hwin := rl_window_gen lim a
      (fun t => decide (a ≤ t) && decide (t ≤ a + lim.windowMs))
      (by intro t; simp) trace [] [] htrace (by simp) (by simp) (by simp)
    simpa using hwin
  · intro now st h
    by_cases hfull : lim.maxRequests ≤ (evictOld (now - lim.windowMs) st).length
    · rw [check_deny lim now st hfull]
      obtain ⟨E, hsplit, _⟩ := evictOld_decomp (now - lim.windowMs) st
      exact ⟨rfl, ⟨E, hsplit.symm⟩⟩
    · rw [check_allow lim now st hfull] at h
      exact absurd h (by simp)
  · intro r now st h
    simp [rateLimitMiddleware, h, rateLimitDenyBody]

/-- Witness for C5 at a concrete limiter, trace, interval and a concrete
full store being denied. -/
theorem C5_sliding_window_rate_limit_witness :
    (admittedTimes ipRateLimiter [] [0, 1]).countP
      (fun t => decide ((0 : Int) ≤ t) &&
        decide (t ≤ 0 + ipRateLimiter.windowMs)) ≤ ipRateLimiter.maxRequests ∧
    rateLimitMiddleware ⟨none, "203.0.113.7"⟩ (List.replicate 100 0) 1 =
      (some (429, [("error", .str "Rate limit exceeded"), ("retryAfter", .num 60),
        ("remaining", .num 0)]),
        ((selectLimiter ⟨none, "203.0.113.7"⟩).check 1 (List.replicate 100 0)).2) := by
  have h := C5_sliding_window_rate_limit ipRateLimiter [0, 1] (by simp)
  exact ⟨h.1 0, h.2.2.2.2.2.2.2 ⟨none, "203.0.113.7"⟩ 1 (List.replicate 100 0) (by decide)⟩
